import Mathlib

/-!
Shallow embedding of `src/HW1/code/src/titanic.py` (the repeated-holdout
evaluator and the two baseline classifiers), together with theorems settling
the specification claims about it.

Modelling conventions:
* Python floats are modelled as exact rationals `ℚ`; the label values observed
  in this program ({0.0, 1.0}) and the probabilities/accuracies computed from
  them are small exact fractions.
* A feature matrix is a list of rows, a label vector a list of rationals.
* Python exceptions are modelled with `Except String`; the error string records
  the exception (the message of the uninitialized-classifier `Exception` is the
  literal string raised by the source, the others record the exception type).
* The mutable classifier objects are modelled by explicit state passing: `fit`
  returns the updated instance ("return self"), `predict` takes the instance
  immutably and returns only the predictions.
* External library collaborators are parameters: sklearn's `train_test_split`
  is an arbitrary function of `(X, y, test_size, random_state)`, and numpy's
  globally seeded generator is an arbitrary function `unif : seed → index → ℚ`
  giving the stream of uniform draws that `np.random.seed`/`np.random.choice`
  consume (the program relies only on the stream being a function of the seed).
-/

set_option linter.unusedVariables false

namespace Titanic

/-- A feature matrix: a list of rows (numpy array of shape (n, d)). -/
abbrev Mat : Type := List (List ℚ)

/-- A label vector (numpy array of shape (n,)). -/
abbrev Labels : Type := List ℚ

/-- Number of elements of `y` equal to `v`: models `Counter(y)[v]`. -/
def count : Labels → ℚ → Nat
  | [], _ => 0
  | w :: ys, v => (if w = v then 1 else 0) + count ys v

/-- First element of the list maximizing `f` (earlier elements win ties). -/
def pickMax (f : ℚ → Nat) : Labels → Option ℚ
  | [] => none
  | x :: xs =>
    match pickMax f xs with
    | none => some x
    | some b => if f x < f b then some b else some x

/-- Models `Counter(y).most_common(1)[0][0]`: the value occurring most often
in `y` (`none` on the empty list, where the source's `[0]` raises IndexError).
When several values tie for most common this picks the first occurring one;
the claims that depend on `most_common` assume a unique most-common value, so
the tie-break never matters for them. -/
def mostCommon1 (y : Labels) : Option ℚ :=
  pickMax (count y) y

/-- State of `MajorityVoteClassifier`: `prediction_` is `None` at
construction and holds the majority class after `fit`. -/
structure MajorityVoteClassifier where
  prediction_ : Option ℚ

deriving instance DecidableEq for MajorityVoteClassifier

/-- `MajorityVoteClassifier.fit` (titanic.py lines 46-61): stores the most
common label as `prediction_` and returns self.  On an empty `y` the
subscript `[0]` of `most_common(1)` raises IndexError before any assignment. -/
def MajorityVoteClassifier.fit (c : MajorityVoteClassifier) (X : Mat) (y : Labels) :
    Except String MajorityVoteClassifier :=
  match mostCommon1 y with
  | none => .error "IndexError"
  | some v => .ok ⟨some v⟩

/-- `MajorityVoteClassifier.predict` (titanic.py lines 63-80): raises if
`prediction_` is still `None`, else returns `[self.prediction_] * n`. -/
def MajorityVoteClassifier.predict (c : MajorityVoteClassifier) (X : Mat) :
    Except String Labels :=
  match c.prediction_ with
  | none => .error "Classifier not initialized. Perform a fit first."
  | some v => .ok (List.replicate X.length v)

/-- State of `RandomClassifier`: `probabilities_` is `None` at construction
and holds the empirical probability of class 0 after `fit`. -/
structure RandomClassifier where
  probabilities_ : Option ℚ

deriving instance DecidableEq for RandomClassifier

/-- `RandomClassifier.fit` (titanic.py lines 95-115): sets `probabilities_` to
`float(cur_dist[0.0]) / (float(cur_dist[0.0]) + float(cur_dist[1.0]))` where
`cur_dist = Counter(y)`.  When `y` has no label equal to 0 and none equal to 1
the denominator is zero and Python raises ZeroDivisionError before any
assignment; no other validation of the label set is performed. -/
def RandomClassifier.fit (c : RandomClassifier) (X : Mat) (y : Labels) :
    Except String RandomClassifier :=
  if count y 0 + count y 1 = 0 then .error "ZeroDivisionError"
  else .ok ⟨some ((count y 0 : ℚ) / ((count y 0 : ℚ) + (count y 1 : ℚ)))⟩

/-- Models `np.random.seed(seed)` followed by
`np.random.choice(2, n, p=[p, 1-p])`: with `cdf = [p, 1]`, numpy draws `n`
uniforms from the freshly seeded stream and maps each draw `u` to
`cdf.searchsorted(u, side='right')`, i.e. to `0` when `u < p` and `1`
otherwise.  `unif seed i` is the external generator's `i`-th uniform draw
after seeding with `seed`. -/
def npRandomChoice2 (unif : Nat → Nat → ℚ) (seed : Nat) (p : ℚ) (n : Nat) : Labels :=
  (List.range n).map (fun i => if unif seed i < p then 0 else 1)

/-- `RandomClassifier.predict` (titanic.py lines 117-140): raises if
`probabilities_` is still `None`, else seeds the generator with `seed` and
draws `X.shape[0]` labels from {0, 1} with P(0) = `probabilities_`. -/
def RandomClassifier.predict (unif : Nat → Nat → ℚ) (c : RandomClassifier)
    (X : Mat) (seed : Nat) : Except String Labels :=
  match c.probabilities_ with
  | none => .error "Classifier not initialized. Perform a fit first."
  | some p => .ok (npRandomChoice2 unif seed p X.length)

/-- A call `clf.predict(X)` without an explicit seed argument uses the
default value `seed=1234` from the signature `def predict(self, X, seed=1234)`. -/
def RandomClassifier.predictDefault (unif : Nat → Nat → ℚ) (c : RandomClassifier)
    (X : Mat) : Except String Labels :=
  RandomClassifier.predict unif c X 1234

/-- `metrics.accuracy_score(y_true, y_pred, normalize=True)` (external
collaborator, spec section 6): the fraction of positions where prediction and
truth are exactly equal.  On empty inputs numpy's mean yields the junk value
NaN without raising; `ℚ`'s division-by-zero convention likewise yields the
junk value 0 without raising. -/
def accuracy_score (yTrue yPred : Labels) : ℚ :=
  (((yTrue.zip yPred).filter (fun p => decide (p.1 = p.2))).length : ℚ) /
    (yTrue.length : ℚ)

/-- The duck-typed classifier contract used by the evaluator: an object with
`fit` and a one-argument `predict` over some state type `σ`. -/
structure ClfSpec (σ : Type) where
  fit : σ → Mat → Labels → Except String σ
  predict : σ → Mat → Except String Labels

/-- `MajorityVoteClassifier` as seen through the evaluator's contract. -/
def mvClfSpec : ClfSpec MajorityVoteClassifier :=
  ⟨MajorityVoteClassifier.fit, MajorityVoteClassifier.predict⟩

/-- `RandomClassifier` as seen through the evaluator's contract: the evaluator
calls `clf.predict(X)` with no seed argument, hence the default seed. -/
def rcClfSpec (unif : Nat → Nat → ℚ) : ClfSpec RandomClassifier :=
  ⟨RandomClassifier.fit, RandomClassifier.predictDefault unif⟩

/-- `train_test_split(X, y, test_size=ts, random_state=i)` (external
collaborator, spec section 6): a deterministic function of
`(X, y, test_size, random_state)` returning
`(X_train, X_test, y_train, y_test)`. -/
abbrev SplitFun : Type := Mat → Labels → ℚ → Nat → Mat × Mat × Labels × Labels

/-- One iteration of the loop body of `error` (titanic.py lines 228-234):
split with `random_state = i`, fit, predict on both partitions, and add
`1 - accuracy` for each to the running sums carried in `acc`. -/
def errorStep {σ : Type} (split : SplitFun) (clf : ClfSpec σ) (X : Mat) (y : Labels)
    (ts : ℚ) (acc : σ × ℚ × ℚ) (i : Nat) : Except String (σ × ℚ × ℚ) := do
  let s ← clf.fit acc.1 (split X y ts i).1 (split X y ts i).2.2.1
  let ytrp ← clf.predict s (split X y ts i).1
  let ytep ← clf.predict s (split X y ts i).2.1
  pure (s, acc.2.1 + (1 - accuracy_score (split X y ts i).2.2.1 ytrp),
           acc.2.2 + (1 - accuracy_score (split X y ts i).2.2.2 ytep))

/-- `for i in range(0, ntrials)` of `error`: runs trials `0, …, n-1` in order,
threading the classifier state and the two error sums. -/
def errorLoop {σ : Type} (split : SplitFun) (clf : ClfSpec σ) (X : Mat) (y : Labels)
    (ts : ℚ) : Nat → σ × ℚ × ℚ → Except String (σ × ℚ × ℚ)
  | 0, acc => .ok acc
  | n + 1, acc => do
    let acc2 ← errorLoop split clf X y ts n acc
    errorStep split clf X y ts acc2 n

/-- `error(clf, X, y, ntrials, test_size)` (titanic.py lines 204-240): run
`ntrials` split/fit/predict trials accumulating both error sums, then divide
each sum by `ntrials`.  With `ntrials = 0` the sums are still the integer `0`
and the final `train_error/ntrials` raises ZeroDivisionError. -/
def error {σ : Type} (split : SplitFun) (clf : ClfSpec σ) (s0 : σ) (X : Mat)
    (y : Labels) (ntrials : Nat) (ts : ℚ) : Except String (ℚ × ℚ) := do
  let r ← errorLoop split clf X y ts ntrials (s0, 0, 0)
  if ntrials = 0 then Except.error "ZeroDivisionError"
  else pure (r.2.1 / (ntrials : ℚ), r.2.2 / (ntrials : ℚ))

/-- `error` with its Python default arguments `ntrials=100, test_size=0.2`. -/
def errorDefault {σ : Type} (split : SplitFun) (clf : ClfSpec σ) (s0 : σ)
    (X : Mat) (y : Labels) : Except String (ℚ × ℚ) :=
  error split clf s0 X y 100 (1 / 5)

/-- The truncation bound `int(len(X_train) * (partial_amt/10.0))` used by
`error_partial`: `int()` truncates toward zero, which on the nonnegative
values arising here is the floor. -/
def truncIndex (len : Nat) (amt : ℚ) : Nat :=
  (Int.floor ((len : ℚ) * (amt / 10))).toNat

/-- One iteration of the loop body of `error_partial` (titanic.py lines
268-276): like `errorStep` but with `X_train` and `y_train` truncated to
their first `truncIndex` rows before fitting. -/
def errorPartialStep {σ : Type} (split : SplitFun) (clf : ClfSpec σ) (X : Mat)
    (y : Labels) (ts : ℚ) (amt : ℚ) (acc : σ × ℚ × ℚ) (i : Nat) :
    Except String (σ × ℚ × ℚ) := do
  let s ← clf.fit acc.1
    ((split X y ts i).1.take (truncIndex (split X y ts i).1.length amt))
    ((split X y ts i).2.2.1.take (truncIndex (split X y ts i).2.2.1.length amt))
  let ytrp ← clf.predict s
    ((split X y ts i).1.take (truncIndex (split X y ts i).1.length amt))
  let ytep ← clf.predict s (split X y ts i).2.1
  pure (s, acc.2.1 + (1 - accuracy_score
             ((split X y ts i).2.2.1.take (truncIndex (split X y ts i).2.2.1.length amt)) ytrp),
           acc.2.2 + (1 - accuracy_score (split X y ts i).2.2.2 ytep))

/-- The trial loop of `error_partial`. -/
def errorPartialLoop {σ : Type} (split : SplitFun) (clf : ClfSpec σ) (X : Mat)
    (y : Labels) (ts : ℚ) (amt : ℚ) : Nat → σ × ℚ × ℚ → Except String (σ × ℚ × ℚ)
  | 0, acc => .ok acc
  | n + 1, acc => do
    let acc2 ← errorPartialLoop split clf X y ts amt n acc
    errorPartialStep split clf X y ts amt acc2 n

/-- `error_partial(clf, X, y, ntrials, test_size, partial_amt)` (titanic.py
lines 242-281): like `error` but each trial's training partition is truncated
to its first `truncIndex` rows before fitting. -/
def errorPartial {σ : Type} (split : SplitFun) (clf : ClfSpec σ) (s0 : σ)
    (X : Mat) (y : Labels) (ntrials : Nat) (ts : ℚ) (amt : ℚ) :
    Except String (ℚ × ℚ) := do
  let r ← errorPartialLoop split clf X y ts amt ntrials (s0, 0, 0)
  if ntrials = 0 then Except.error "ZeroDivisionError"
  else pure (r.2.1 / (ntrials : ℚ), r.2.2 / (ntrials : ℚ))

/-- A split function post-composed with `error_partial`'s truncation of the
training partition: used to state what the truncation does relative to
`error`. -/
def truncSplit (split : SplitFun) (amt : ℚ) : SplitFun := fun X y ts i =>
  ((split X y ts i).1.take (truncIndex (split X y ts i).1.length amt),
   (split X y ts i).2.1,
   (split X y ts i).2.2.1.take (truncIndex (split X y ts i).2.2.1.length amt),
   (split X y ts i).2.2.2)

/-- The classifier state held just before trial `i` of `error` (the source
mutates one classifier object across the trials). -/
def stateAfter {σ : Type} (split : SplitFun) (clf : ClfSpec σ) (X : Mat)
    (y : Labels) (ts : ℚ) (s0 : σ) : Nat → Except String σ
  | 0 => .ok s0
  | i + 1 => do
    let s ← stateAfter split clf X y ts s0 i
    clf.fit s (split X y ts i).1 (split X y ts i).2.2.1

/-- The pair of error contributions of trial `i` of `error`: split `(X, y)`
with `random_state = i` and fraction `ts`, fit the classifier state reached
before trial `i`, and return `(1 - accuracy on the training partition,
1 - accuracy on the test partition)`. -/
def trialOutcome {σ : Type} (split : SplitFun) (clf : ClfSpec σ) (X : Mat)
    (y : Labels) (ts : ℚ) (s0 : σ) (i : Nat) : Except String (ℚ × ℚ) := do
  let s ← stateAfter split clf X y ts s0 i
  let s2 ← clf.fit s (split X y ts i).1 (split X y ts i).2.2.1
  let ytrp ← clf.predict s2 (split X y ts i).1
  let ytep ← clf.predict s2 (split X y ts i).2.1
  pure (1 - accuracy_score (split X y ts i).2.2.1 ytrp,
        1 - accuracy_score (split X y ts i).2.2.2 ytep)

/-- Training-error contribution of trial `i` (0 on a failed trial; only used
under the hypothesis that every trial succeeds). -/
def trainContrib {σ : Type} (split : SplitFun) (clf : ClfSpec σ) (X : Mat)
    (y : Labels) (ts : ℚ) (s0 : σ) (i : Nat) : ℚ :=
  match trialOutcome split clf X y ts s0 i with
  | .ok r => r.1
  | .error _ => 0

/-- Test-error contribution of trial `i` (0 on a failed trial; only used
under the hypothesis that every trial succeeds). -/
def testContrib {σ : Type} (split : SplitFun) (clf : ClfSpec σ) (X : Mat)
    (y : Labels) (ts : ℚ) (s0 : σ) (i : Nat) : ℚ :=
  match trialOutcome split clf X y ts s0 i with
  | .ok r => r.2
  | .error _ => 0

/-! ## Helper lemmas -/

theorem exc_bind_ok {α β : Type} (a : α) (f : α → Except String β) :
    (Except.ok a >>= f : Except String β) = f a := rfl

theorem exc_bind_error {α β : Type} (e : String) (f : α → Except String β) :
    (Except.error e >>= f : Except String β) = Except.error e := rfl

@[simp] theorem mvClfSpec_fit : mvClfSpec.fit = MajorityVoteClassifier.fit := rfl

@[simp] theorem mvClfSpec_predict :
    mvClfSpec.predict = MajorityVoteClassifier.predict := rfl

@[simp] theorem rcClfSpec_fit (unif : Nat → Nat → ℚ) :
    (rcClfSpec unif).fit = RandomClassifier.fit := rfl

@[simp] theorem rcClfSpec_predict (unif : Nat → Nat → ℚ) :
    (rcClfSpec unif).predict = RandomClassifier.predictDefault unif := rfl

theorem pickMax_spec (f : ℚ → Nat) :
    ∀ l : Labels, l ≠ [] →
      ∃ b, pickMax f l = some b ∧ b ∈ l ∧ ∀ w ∈ l, f w ≤ f b := by
  intro l
  induction l with
  | nil => exact fun h => absurd rfl h
  | cons x xs ih =>
    intro _
    by_cases hxs : xs = []
    · subst hxs
      refine ⟨x, rfl, List.mem_cons_self x [], ?_⟩
      intro w hw
      have hwx : w = x := by simpa using hw
      simp [hwx]
    · obtain ⟨b, hb, hbmem, hbmax⟩ := ih hxs
      by_cases hlt : f x < f b
      · refine ⟨b, ?_, List.mem_cons_of_mem x hbmem, ?_⟩
        · simp [pickMax, hb, hlt]
        · intro w hw
          rcases List.mem_cons.mp hw with h | h
          · subst h; exact le_of_lt hlt
          · exact hbmax w h
      · refine ⟨x, ?_, List.mem_cons_self x xs, ?_⟩
        · simp [pickMax, hb, hlt]
        · intro w hw
          rcases List.mem_cons.mp hw with h | h
          · subst h; exact le_refl _
          · exact le_trans (hbmax w h) (not_lt.mp hlt)

theorem mostCommon1_eq_of_unique (y : Labels) (v : ℚ) (hv : v ∈ y)
    (hu : ∀ w ∈ y, w ≠ v → count y w < count y v) : mostCommon1 y = some v := by
  have hne : y ≠ [] := by
    intro h
    subst h
    simp at hv
  obtain ⟨b, hb, hbmem, hbmax⟩ := pickMax_spec (count y) y hne
  have hbv : b = v := by
    by_contra hne2
    exact absurd (hu b hbmem hne2) (not_lt.mpr (hbmax v hv))
  rw [mostCommon1, hb, hbv]

theorem mostCommon1_nonempty (y : Labels) (h : y ≠ []) :
    ∃ v, mostCommon1 y = some v := by
  obtain ⟨b, hb, _, _⟩ := pickMax_spec (count y) y h
  exact ⟨b, hb⟩

theorem count_zero_add_count_one (y : Labels) (h : ∀ w ∈ y, w = 0 ∨ w = 1) :
    count y 0 + count y 1 = y.length := by
  induction y with
  | nil => rfl
  | cons w ys ih =>
    have ihy := ih (fun a ha => h a (List.mem_cons_of_mem w ha))
    rcases h w (List.mem_cons_self w ys) with h0 | h1
    · subst h0
      have e0 : count (0 :: ys) 0 = 1 + count ys 0 := by
        show (if (0 : ℚ) = 0 then 1 else 0) + count ys 0 = 1 + count ys 0
        norm_num
      have e1 : count (0 :: ys) 1 = count ys 1 := by
        show (if (0 : ℚ) = 1 then 1 else 0) + count ys 1 = count ys 1
        norm_num
      rw [e0, e1, List.length_cons]
      omega
    · subst h1
      have e0 : count (1 :: ys) 0 = count ys 0 := by
        show (if (1 : ℚ) = 0 then 1 else 0) + count ys 0 = count ys 0
        norm_num
      have e1 : count (1 :: ys) 1 = 1 + count ys 1 := by
        show (if (1 : ℚ) = 1 then 1 else 0) + count ys 1 = 1 + count ys 1
        norm_num
      rw [e0, e1, List.length_cons]
      omega

theorem rc_predict_congr (unif : Nat → Nat → ℚ) (c1 c2 : RandomClassifier)
    (X1 X2 : Mat) (seed : Nat) (hp : c1.probabilities_ = c2.probabilities_)
    (hn : X1.length = X2.length) :
    RandomClassifier.predict unif c1 X1 seed = RandomClassifier.predict unif c2 X2 seed := by
  cases hc1 : c1.probabilities_ with
  | none =>
    have hc2 : c2.probabilities_ = none := by rw [← hp, hc1]
    simp [RandomClassifier.predict, hc1, hc2]
  | some p =>
    have hc2 : c2.probabilities_ = some p := by rw [← hp, hc1]
    simp [RandomClassifier.predict, hc1, hc2, hn]

theorem truncIndex_ten (len : Nat) : truncIndex len 10 = len := by
  unfold truncIndex
  norm_num [Int.floor_natCast]

theorem truncSplit_ten (split : SplitFun) : truncSplit split 10 = split := by
  funext X y ts i
  unfold truncSplit
  rw [truncIndex_ten, truncIndex_ten, List.take_length, List.take_length]

theorem errorPartialStep_eq_errorStep_trunc {σ : Type} (split : SplitFun)
    (clf : ClfSpec σ) (X : Mat) (y : Labels) (ts : ℚ) (amt : ℚ)
    (acc : σ × ℚ × ℚ) (i : Nat) :
    errorPartialStep split clf X y ts amt acc i =
      errorStep (truncSplit split amt) clf X y ts acc i := rfl

theorem errorPartialLoop_eq_errorLoop_trunc {σ : Type} (split : SplitFun)
    (clf : ClfSpec σ) (X : Mat) (y : Labels) (ts : ℚ) (amt : ℚ) :
    ∀ (n : Nat) (acc : σ × ℚ × ℚ),
      errorPartialLoop split clf X y ts amt n acc =
        errorLoop (truncSplit split amt) clf X y ts n acc := by
  intro n
  induction n with
  | zero => intro acc; rfl
  | succ n ih =>
    intro acc
    show (errorPartialLoop split clf X y ts amt n acc >>= fun acc2 =>
            errorPartialStep split clf X y ts amt acc2 n) =
         (errorLoop (truncSplit split amt) clf X y ts n acc >>= fun acc2 =>
            errorStep (truncSplit split amt) clf X y ts acc2 n)
    rw [ih]
    rfl

theorem errorLoop_eq_sum {σ : Type} (split : SplitFun) (clf : ClfSpec σ) (X : Mat)
    (y : Labels) (ts : ℚ) (s0 : σ) :
    ∀ n : Nat, (∀ i, i < n → (trialOutcome split clf X y ts s0 i).isOk = true) →
      ∃ s, stateAfter split clf X y ts s0 n = .ok s ∧
        errorLoop split clf X y ts n (s0, 0, 0) =
          .ok (s, ((List.range n).map (trainContrib split clf X y ts s0)).sum,
                  ((List.range n).map (testContrib split clf X y ts s0)).sum) := by
  intro n
  induction n with
  | zero => exact fun _ => ⟨s0, rfl, by simp [errorLoop]⟩
  | succ n ih =>
    intro h
    obtain ⟨s, hs, hloop⟩ := ih (fun i hi => h i (Nat.lt_succ_of_lt hi))
    have htrial := h n (Nat.lt_succ_self n)
    unfold trialOutcome at htrial
    rw [hs, exc_bind_ok] at htrial
    cases hfit : clf.fit s (split X y ts n).1 (split X y ts n).2.2.1 with
    | error e =>
      rw [hfit, exc_bind_error] at htrial
      exact Bool.noConfusion htrial
    | ok s2 =>
      rw [hfit, exc_bind_ok] at htrial
      cases hp1 : clf.predict s2 (split X y ts n).1 with
      | error e =>
        rw [hp1, exc_bind_error] at htrial
        exact Bool.noConfusion htrial
      | ok ytrp =>
        rw [hp1, exc_bind_ok] at htrial
        cases hp2 : clf.predict s2 (split X y ts n).2.1 with
        | error e =>
          rw [hp2, exc_bind_error] at htrial
          exact Bool.noConfusion htrial
        | ok ytep =>
          have htc : trainContrib split clf X y ts s0 n =
              1 - accuracy_score (split X y ts n).2.2.1 ytrp := by
            unfold trainContrib trialOutcome
            rw [hs, exc_bind_ok, hfit, exc_bind_ok, hp1, exc_bind_ok, hp2, exc_bind_ok]
            rfl
          have hsc : testContrib split clf X y ts s0 n =
              1 - accuracy_score (split X y ts n).2.2.2 ytep := by
            unfold testContrib trialOutcome
            rw [hs, exc_bind_ok, hfit, exc_bind_ok, hp1, exc_bind_ok, hp2, exc_bind_ok]
            rfl
          refine ⟨s2, ?_, ?_⟩
          · unfold stateAfter
            rw [hs, exc_bind_ok]
            exact hfit
          · unfold errorLoop
            rw [hloop, exc_bind_ok]
            unfold errorStep
            rw [hfit, exc_bind_ok, hp1, exc_bind_ok, hp2, exc_bind_ok]
            rw [List.range_succ, List.map_append, List.map_append,
                List.sum_append, List.sum_append]
            simp [htc, hsc]
            rfl

theorem errorLoop_error_of_first {σ : Type} (split : SplitFun) (clf : ClfSpec σ)
    (X : Mat) (y : Labels) (ts : ℚ) (acc : σ × ℚ × ℚ) (e : String)
    (h0 : errorStep split clf X y ts acc 0 = .error e) :
    ∀ m : Nat, errorLoop split clf X y ts (m + 1) acc = .error e := by
  intro m
  induction m with
  | zero =>
    show (errorLoop split clf X y ts 0 acc >>= fun acc2 =>
            errorStep split clf X y ts acc2 0) = .error e
    rw [show errorLoop split clf X y ts 0 acc = .ok acc from rfl, exc_bind_ok]
    exact h0
  | succ m ih =>
    show (errorLoop split clf X y ts (m + 1) acc >>= fun acc2 =>
            errorStep split clf X y ts acc2 (m + 1)) = .error e
    rw [ih, exc_bind_error]

theorem mv_fit_ok (c : MajorityVoteClassifier) (X : Mat) (y : Labels) (h : y ≠ []) :
    ∃ v, c.fit X y = .ok ⟨some v⟩ := by
  obtain ⟨v, hv⟩ := mostCommon1_nonempty y h
  exact ⟨v, by simp [MajorityVoteClassifier.fit, hv]⟩

theorem mv_errorLoop_ok (split : SplitFun) (X : Mat) (y : Labels) (ts : ℚ) :
    ∀ (n : Nat) (acc : MajorityVoteClassifier × ℚ × ℚ),
      (∀ i, i < n → (split X y ts i).2.2.1 ≠ []) →
      ∃ acc2, errorLoop split mvClfSpec X y ts n acc = .ok acc2 := by
  intro n
  induction n with
  | zero => exact fun acc _ => ⟨acc, rfl⟩
  | succ n ih =>
    intro acc h
    obtain ⟨acc2, h2⟩ := ih acc (fun i hi => h i (Nat.lt_succ_of_lt hi))
    obtain ⟨v, hfit⟩ :=
      mv_fit_ok acc2.1 (split X y ts n).1 (split X y ts n).2.2.1 (h n (Nat.lt_succ_self n))
    have hstep : errorStep split mvClfSpec X y ts acc2 n =
        .ok (⟨some v⟩,
             acc2.2.1 + (1 - accuracy_score (split X y ts n).2.2.1
               (List.replicate (split X y ts n).1.length v)),
             acc2.2.2 + (1 - accuracy_score (split X y ts n).2.2.2
               (List.replicate (split X y ts n).2.1.length v))) := by
      unfold errorStep
      rw [mvClfSpec_fit, hfit, exc_bind_ok]
      rfl
    refine ⟨(⟨some v⟩,
             acc2.2.1 + (1 - accuracy_score (split X y ts n).2.2.1
               (List.replicate (split X y ts n).1.length v)),
             acc2.2.2 + (1 - accuracy_score (split X y ts n).2.2.2
               (List.replicate (split X y ts n).2.1.length v))), ?_⟩
    show (errorLoop split mvClfSpec X y ts n acc >>= fun acc3 =>
            errorStep split mvClfSpec X y ts acc3 n) = _
    rw [h2, exc_bind_ok, hstep]

/-! ## Claim theorems -/

/-- Claim C3: for every non-empty label vector `y` with a unique most-common
value `v` and every feature matrix `X` with `n` rows,
`MajorityVoteClassifier.fit(X, y).predict(X)` returns `v` repeated `n` times,
independent of the feature values in `X` (and of the prior classifier state). -/
theorem mv_fit_predict_majority (c : MajorityVoteClassifier) (X : Mat) (y : Labels)
    (v : ℚ) (hv : v ∈ y) (hu : ∀ w ∈ y, w ≠ v → count y w < count y v) :
    c.fit X y = .ok ⟨some v⟩ ∧
    MajorityVoteClassifier.predict ⟨some v⟩ X = .ok (List.replicate X.length v) := by
  constructor
  · simp [MajorityVoteClassifier.fit, mostCommon1_eq_of_unique y v hv hu]
  · rfl

/-- Witness for C3 at X = [[5], [6]], y = [1, 0, 1]: the unique most-common
label 1 is predicted for both rows. -/
theorem mv_fit_predict_majority_witness :
    MajorityVoteClassifier.fit ⟨none⟩ [[5], [6]] [1, 0, 1] = .ok ⟨some 1⟩ ∧
    MajorityVoteClassifier.predict ⟨some 1⟩ [[5], [6]] =
      .ok (List.replicate 2 (1 : ℚ)) :=
  mv_fit_predict_majority ⟨none⟩ [[5], [6]] [1, 0, 1] 1 (by decide) (by decide)

/-- Claim C4: for every label vector `y` over {0, 1} with at least one
element, `RandomClassifier.fit(X, y)` sets `probabilities_` to
`count(y == 0) / (count(y == 0) + count(y == 1))`. -/
theorem rc_fit_probabilities (c : RandomClassifier) (X : Mat) (y : Labels)
    (hne : y ≠ []) (hbin : ∀ w ∈ y, w = 0 ∨ w = 1) :
    c.fit X y =
      .ok ⟨some ((count y 0 : ℚ) / ((count y 0 : ℚ) + (count y 1 : ℚ)))⟩ := by
  have hlen := count_zero_add_count_one y hbin
  have hnz : count y 0 + count y 1 ≠ 0 := by
    rw [hlen]
    intro h0
    exact hne (List.length_eq_zero.mp h0)
  simp [RandomClassifier.fit, hnz]

/-- Witness for C4: on y = [0, 0, 0, 1], `probabilities_` is exactly 0.75. -/
theorem rc_fit_probabilities_witness :
    RandomClassifier.fit ⟨none⟩ [] [0, 0, 0, 1] = .ok ⟨some (3 / 4)⟩ := by
  have h := rc_fit_probabilities ⟨none⟩ [] [0, 0, 0, 1] (by decide) (by decide)
  rw [h]
  norm_num [count]

/-- Claim C5: `RandomClassifier.predict` is deterministic: two calls with the
same seed, same `probabilities_` and the same row count `n` produce identical
outputs, and any produced output is a sequence of `n` labels drawn from
{0, 1}.  (`unif` is the external seeded generator; the output is a pure
function of it, the seed, `probabilities_` and `n`.) -/
theorem rc_predict_deterministic (unif : Nat → Nat → ℚ) (c1 c2 : RandomClassifier)
    (X1 X2 : Mat) (seed1 seed2 : Nat) (hp : c1.probabilities_ = c2.probabilities_)
    (hn : X1.length = X2.length) (hs : seed1 = seed2) :
    RandomClassifier.predict unif c1 X1 seed1 =
      RandomClassifier.predict unif c2 X2 seed2 ∧
    ∀ ys, RandomClassifier.predict unif c1 X1 seed1 = .ok ys →
      ys.length = X1.length ∧ ∀ v ∈ ys, v = 0 ∨ v = 1 := by
  subst hs
  refine ⟨rc_predict_congr unif c1 c2 X1 X2 seed1 hp hn, ?_⟩
  intro ys hys
  cases hc1 : c1.probabilities_ with
  | none => simp [RandomClassifier.predict, hc1] at hys
  | some p =>
    simp only [RandomClassifier.predict, hc1, Except.ok.injEq] at hys
    subst hys
    constructor
    · simp [npRandomChoice2]
    · intro v hv
      simp only [npRandomChoice2, List.mem_map] at hv
      obtain ⟨i, _, hi⟩ := hv
      by_cases hlt : unif seed1 i < p
      · left; rw [← hi, if_pos hlt]
      · right; rw [← hi, if_neg hlt]

/-- Witness for C5: the same fitted state and seed produce the same output on
two different feature matrices of the same length. -/
theorem rc_predict_deterministic_witness :
    RandomClassifier.predict (fun s i => ((s + i) % 2 : ℚ) / 2)
      ⟨some (1 / 2)⟩ [[1]] 42 =
    RandomClassifier.predict (fun s i => ((s + i) % 2 : ℚ) / 2)
      ⟨some (1 / 2)⟩ [[2]] 42 :=
  (rc_predict_deterministic (fun s i => ((s + i) % 2 : ℚ) / 2)
    ⟨some (1 / 2)⟩ ⟨some (1 / 2)⟩ [[1]] [[2]] 42 42 rfl rfl rfl).1

/-- Claim C6: `predict` on a freshly constructed instance (state `none`) of
either baseline fails with the uninitialized-classifier error; after any
completed `fit` call, `predict` no longer fails with that error. -/
theorem predict_requires_fit (unif : Nat → Nat → ℚ) (X : Mat) (seed : Nat) :
    MajorityVoteClassifier.predict ⟨none⟩ X =
        .error "Classifier not initialized. Perform a fit first." ∧
    RandomClassifier.predict unif ⟨none⟩ X seed =
        .error "Classifier not initialized. Perform a fit first." ∧
    (∀ (c c2 : MajorityVoteClassifier) (Xf : Mat) (yf : Labels),
      c.fit Xf yf = .ok c2 → ∀ X2 : Mat,
        c2.predict X2 ≠
          .error "Classifier not initialized. Perform a fit first.") ∧
    (∀ (c c2 : RandomClassifier) (Xf : Mat) (yf : Labels),
      c.fit Xf yf = .ok c2 → ∀ (X2 : Mat) (s : Nat),
        RandomClassifier.predict unif c2 X2 s ≠
          .error "Classifier not initialized. Perform a fit first.") := by
  refine ⟨rfl, rfl, ?_, ?_⟩
  · intro c c2 Xf yf hfit X2
    cases hm : mostCommon1 yf with
    | none => simp [MajorityVoteClassifier.fit, hm] at hfit
    | some v =>
      simp only [MajorityVoteClassifier.fit, hm, Except.ok.injEq] at hfit
      subst hfit
      intro hcontra
      exact Except.noConfusion hcontra
  · intro c c2 Xf yf hfit X2 s
    by_cases hz : count yf 0 + count yf 1 = 0
    · simp [RandomClassifier.fit, hz] at hfit
    · simp only [RandomClassifier.fit, hz, if_false, Except.ok.injEq] at hfit
      subst hfit
      intro hcontra
      exact Except.noConfusion hcontra

/-- Witness for C6: concrete uninitialized failure, and a fitted instance
whose predict no longer fails with the uninitialized error. -/
theorem predict_requires_fit_witness :
    MajorityVoteClassifier.predict ⟨none⟩ [[1]] =
      .error "Classifier not initialized. Perform a fit first." ∧
    MajorityVoteClassifier.predict ⟨some 0⟩ [[1]] ≠
      .error "Classifier not initialized. Perform a fit first." :=
  ⟨(predict_requires_fit (fun _ _ => 0) [[1]] 0).1,
   (predict_requires_fit (fun _ _ => 0) [[1]] 0).2.2.1 ⟨none⟩ ⟨some 0⟩ [[1]] [0]
     rfl [[1]]⟩

/-- Claim C7 (amended): `RandomClassifier.fit` performs no validation of the
label set.  It raises ZeroDivisionError exactly when `y` contains no label
equal to 0 and none equal to 1 (the division by zero is never silently
handled); for every other `y` — including label sets different from {0, 1} —
it silently computes `count(y == 0) / (count(y == 0) + count(y == 1))`. -/
theorem rc_fit_division_by_zero (c : RandomClassifier) (X : Mat) (y : Labels) :
    (count y 0 + count y 1 = 0 → c.fit X y = .error "ZeroDivisionError") ∧
    (count y 0 + count y 1 ≠ 0 →
      c.fit X y =
        .ok ⟨some ((count y 0 : ℚ) / ((count y 0 : ℚ) + (count y 1 : ℚ)))⟩) := by
  constructor
  · intro h
    simp [RandomClassifier.fit, h]
  · intro h
    simp [RandomClassifier.fit, h]

/-- Counterexample to C7 as stated: y = [0, 2] has label set {0, 2} ≠ {0, 1},
yet `fit` raises nothing and silently computes `probabilities_ = 1`. -/
theorem rc_fit_no_validation_counterexample :
    RandomClassifier.fit ⟨none⟩ [] [0, 2] = .ok ⟨some 1⟩ := by
  norm_num [RandomClassifier.fit, count]

/-- Witness for C7 (amended): y = [2] has no 0 and no 1 label, so `fit`
raises ZeroDivisionError. -/
theorem rc_fit_division_by_zero_witness :
    RandomClassifier.fit ⟨none⟩ [] [2] = .error "ZeroDivisionError" :=
  (rc_fit_division_by_zero ⟨none⟩ [] [2]).1 (by decide)

/-- Claim C9: for both baselines, `fit` recomputes the stored state from
`(X, y)` alone — the result does not depend on the prior state (full
overwrite), and re-fitting an already fitted instance on the same data leaves
it in the same state (re-fit idempotence).  In this embedding `fit` returns
the updated instance ("return self") and `predict` takes the instance
immutably, which is how the mutation-free predict contract is rendered. -/
theorem fit_overwrites_idempotent (X : Mat) (y : Labels) :
    (∀ c c2 : MajorityVoteClassifier, c.fit X y = c2.fit X y) ∧
    (∀ c c2 : MajorityVoteClassifier, c.fit X y = .ok c2 → c2.fit X y = .ok c2) ∧
    (∀ c c2 : RandomClassifier, c.fit X y = c2.fit X y) ∧
    (∀ c c2 : RandomClassifier, c.fit X y = .ok c2 → c2.fit X y = .ok c2) := by
  refine ⟨fun c c2 => rfl, ?_, fun c c2 => rfl, ?_⟩
  · intro c c2 h
    cases hm : mostCommon1 y with
    | none => simp [MajorityVoteClassifier.fit, hm] at h
    | some v =>
      simp only [MajorityVoteClassifier.fit, hm, Except.ok.injEq] at h ⊢
      exact h
  · intro c c2 h
    by_cases hz : count y 0 + count y 1 = 0
    · simp [RandomClassifier.fit, hz] at h
    · simp only [RandomClassifier.fit, hz, if_false, Except.ok.injEq] at h ⊢
      exact h

/-- Witness for C9: fitting from two different prior states agrees, and
re-fitting a fitted instance reproduces it. -/
theorem fit_overwrites_idempotent_witness :
    MajorityVoteClassifier.fit ⟨some 5⟩ [[1]] [0] =
      MajorityVoteClassifier.fit ⟨none⟩ [[1]] [0] ∧
    MajorityVoteClassifier.fit ⟨some 0⟩ [[1]] [0] = .ok ⟨some 0⟩ :=
  ⟨(fit_overwrites_idempotent [[1]] [0]).1 ⟨some 5⟩ ⟨none⟩,
   (fit_overwrites_idempotent [[1]] [0]).2.1 ⟨none⟩ ⟨some 0⟩ rfl⟩

/-- Claim C10: a `predict` call without an explicit seed — as the evaluator
makes through the generic contract `clf.predict(X)` — uses the fixed default
seed 1234, so for fixed `probabilities_` and row count all such calls return
the same sequence; the `ClfSpec` under which `error` drives a
`RandomClassifier` predicts with seed 1234 on every trial. -/
theorem rc_predict_default_seed (unif : Nat → Nat → ℚ) (c : RandomClassifier)
    (X : Mat) :
    RandomClassifier.predictDefault unif c X =
      RandomClassifier.predict unif c X 1234 ∧
    (rcClfSpec unif).predict c X = RandomClassifier.predict unif c X 1234 ∧
    (∀ (c2 : RandomClassifier) (X2 : Mat),
      c.probabilities_ = c2.probabilities_ → X.length = X2.length →
      RandomClassifier.predictDefault unif c X =
        RandomClassifier.predictDefault unif c2 X2) :=
  ⟨rfl, rfl, fun c2 X2 hp hn => rc_predict_congr unif c c2 X X2 1234 hp hn⟩

/-- Witness for C10: two default-seed calls with the same fitted state on
different matrices of equal length coincide. -/
theorem rc_predict_default_seed_witness :
    RandomClassifier.predictDefault (fun s i => ((s + i) % 2 : ℚ) / 2)
      ⟨some (1 / 2)⟩ [[3]] =
    RandomClassifier.predictDefault (fun s i => ((s + i) % 2 : ℚ) / 2)
      ⟨some (1 / 2)⟩ [[4]] :=
  (rc_predict_default_seed (fun s i => ((s + i) % 2 : ℚ) / 2)
    ⟨some (1 / 2)⟩ [[3]]).2.2 ⟨some (1 / 2)⟩ [[4]] rfl rfl

/-- Claim C1 (amended): for every ntrials ≥ 1, provided every trial returns
normally, `error` performs exactly `ntrials` trials — trial `i` splits
`(X, y)` with `random_state = i` and fraction `test_size`, fits the
classifier on the training partition, and contributes `1 - accuracy` on the
training and test partitions — and returns the pair of contribution sums
each divided by `ntrials`.  (With `ntrials = 0` the final division by
`ntrials` raises ZeroDivisionError instead of returning a pair.) -/
theorem error_averages_seeded_trials {σ : Type} (split : SplitFun)
    (clf : ClfSpec σ) (s0 : σ) (X : Mat) (y : Labels) (ntrials : Nat) (ts : ℚ)
    (hn : 1 ≤ ntrials)
    (h : ∀ i, i < ntrials → (trialOutcome split clf X y ts s0 i).isOk = true) :
    error split clf s0 X y ntrials ts =
      .ok (((List.range ntrials).map (trainContrib split clf X y ts s0)).sum /
             (ntrials : ℚ),
           ((List.range ntrials).map (testContrib split clf X y ts s0)).sum /
             (ntrials : ℚ)) := by
  obtain ⟨s, hs, hloop⟩ := errorLoop_eq_sum split clf X y ts s0 ntrials h
  show (errorLoop split clf X y ts ntrials (s0, 0, 0) >>= fun r =>
        if ntrials = 0 then Except.error "ZeroDivisionError"
        else pure (r.2.1 / (ntrials : ℚ), r.2.2 / (ntrials : ℚ))) = _
  rw [hloop, exc_bind_ok, if_neg (by omega : ¬ ntrials = 0)]
  rfl

/-- Counterexample to C1 as stated: at `ntrials = 0` the loop body never
runs and the final `train_error / ntrials` raises ZeroDivisionError, so no
pair is returned. -/
theorem error_zero_trials_counterexample :
    error (fun X y ts i => (X, X, y, y)) mvClfSpec ⟨none⟩ [[1], [2]] [0, 1]
      0 (1 / 5) = Except.error "ZeroDivisionError" := rfl

/-- Witness for C1 at a one-trial run of the majority baseline under the
identity split. -/
theorem error_averages_seeded_trials_witness :
    error (fun X y ts i => (X, X, y, y)) mvClfSpec ⟨none⟩ [[1], [2]] [0, 1]
      1 (1 / 5) =
      .ok (((List.range 1).map (trainContrib (fun X y ts i => (X, X, y, y))
              mvClfSpec [[1], [2]] [0, 1] (1 / 5) ⟨none⟩)).sum / ((1 : Nat) : ℚ),
           ((List.range 1).map (testContrib (fun X y ts i => (X, X, y, y))
              mvClfSpec [[1], [2]] [0, 1] (1 / 5) ⟨none⟩)).sum / ((1 : Nat) : ℚ)) :=
  error_averages_seeded_trials (fun X y ts i => (X, X, y, y)) mvClfSpec ⟨none⟩
    [[1], [2]] [0, 1] 1 (1 / 5) (by omega) (by decide)

/-- Claim C2: `error_partial` truncates each trial's training partition
(features and labels, each by its own length) to its first
`floor(len * partial_amt/10)` rows before fitting — it coincides with `error`
run against the truncated split — and with `partial_amt = 10` it returns
results identical to `error` with the same ntrials and test_size. -/
theorem errorPartial_truncates_and_full_equiv {σ : Type} (split : SplitFun)
    (clf : ClfSpec σ) (s0 : σ) (X : Mat) (y : Labels) (ntrials : Nat) (ts : ℚ)
    (amt : ℚ) :
    errorPartial split clf s0 X y ntrials ts amt =
      error (truncSplit split amt) clf s0 X y ntrials ts ∧
    (amt = 10 → errorPartial split clf s0 X y ntrials ts amt =
      error split clf s0 X y ntrials ts) := by
  have h1 : errorPartial split clf s0 X y ntrials ts amt =
      error (truncSplit split amt) clf s0 X y ntrials ts := by
    show (errorPartialLoop split clf X y ts amt ntrials (s0, 0, 0) >>= fun r =>
          if ntrials = 0 then Except.error "ZeroDivisionError"
          else pure (r.2.1 / (ntrials : ℚ), r.2.2 / (ntrials : ℚ))) = _
    rw [errorPartialLoop_eq_errorLoop_trunc]
    rfl
  refine ⟨h1, fun h10 => ?_⟩
  subst h10
  rw [h1, truncSplit_ten]

/-- Witness for C2 at `partial_amt = 10`: a two-trial run of `error_partial`
equals the corresponding run of `error`. -/
theorem errorPartial_truncates_and_full_equiv_witness :
    errorPartial (fun X y ts i => (X, X, y, y)) mvClfSpec ⟨none⟩ [[1], [2]]
      [0, 1] 2 (1 / 5) 10 =
    error (fun X y ts i => (X, X, y, y)) mvClfSpec ⟨none⟩ [[1], [2]]
      [0, 1] 2 (1 / 5) :=
  (errorPartial_truncates_and_full_equiv (fun X y ts i => (X, X, y, y))
    mvClfSpec ⟨none⟩ [[1], [2]] [0, 1] 2 (1 / 5) 10).2 rfl

/-- Claim C8 (amended): an empty training partition makes the evaluator fail
by propagating the baseline classifier's own exception (IndexError from the
majority baseline's fit, ZeroDivisionError from the random baseline's fit) —
there is no dedicated input-validation error — while an empty test partition
is not detected at all: with nonempty training labels the evaluation
completes and silently returns numeric results (numpy yields NaN for the
empty-test accuracy; no exception is raised). -/
theorem error_empty_partition_behavior (unif : Nat → Nat → ℚ) (split : SplitFun)
    (c0 : MajorityVoteClassifier) (r0 : RandomClassifier) (X : Mat) (y : Labels)
    (n : Nat) (ts : ℚ) (hn : 1 ≤ n) :
    ((split X y ts 0).2.2.1 = [] →
      error split mvClfSpec c0 X y n ts = .error "IndexError" ∧
      error split (rcClfSpec unif) r0 X y n ts = .error "ZeroDivisionError") ∧
    ((∀ i, i < n → (split X y ts i).2.2.1 ≠ []) →
      (error split mvClfSpec c0 X y n ts).isOk = true) := by
  obtain ⟨m, rfl⟩ : ∃ m, n = m + 1 := ⟨n - 1, by omega⟩
  constructor
  · intro hempty
    constructor
    · have hstep : errorStep split mvClfSpec X y ts (c0, 0, 0) 0 =
          .error "IndexError" := by
        unfold errorStep
        rw [mvClfSpec_fit, hempty]
        rfl
      show (errorLoop split mvClfSpec X y ts (m + 1) (c0, 0, 0) >>= fun r =>
            if m + 1 = 0 then Except.error "ZeroDivisionError"
            else pure (r.2.1 / ((m + 1 : Nat) : ℚ), r.2.2 / ((m + 1 : Nat) : ℚ))) =
          Except.error "IndexError"
      rw [errorLoop_error_of_first split mvClfSpec X y ts (c0, 0, 0)
            "IndexError" hstep m, exc_bind_error]
    · have hstep : errorStep split (rcClfSpec unif) X y ts (r0, 0, 0) 0 =
          .error "ZeroDivisionError" := by
        unfold errorStep
        rw [rcClfSpec_fit, hempty]
        rfl
      show (errorLoop split (rcClfSpec unif) X y ts (m + 1) (r0, 0, 0) >>= fun r =>
            if m + 1 = 0 then Except.error "ZeroDivisionError"
            else pure (r.2.1 / ((m + 1 : Nat) : ℚ), r.2.2 / ((m + 1 : Nat) : ℚ))) =
          Except.error "ZeroDivisionError"
      rw [errorLoop_error_of_first split (rcClfSpec unif) X y ts (r0, 0, 0)
            "ZeroDivisionError" hstep m, exc_bind_error]
  · intro hne
    obtain ⟨acc2, hacc⟩ := mv_errorLoop_ok split X y ts (m + 1) (c0, 0, 0) hne
    show ((errorLoop split mvClfSpec X y ts (m + 1) (c0, 0, 0) >>= fun r =>
          if m + 1 = 0 then Except.error "ZeroDivisionError"
          else pure (r.2.1 / ((m + 1 : Nat) : ℚ),
                     r.2.2 / ((m + 1 : Nat) : ℚ))).isOk) = true
    rw [hacc, exc_bind_ok, if_neg (by omega : ¬ m + 1 = 0)]
    rfl

/-- Counterexample to C8 as stated: a split yielding an empty test partition
is not rejected — the evaluator completes and silently returns a numeric
result instead of failing with an input-validation error. -/
theorem error_empty_test_counterexample :
    (error (fun X y ts i => (X, [], y, [])) mvClfSpec ⟨none⟩ [[1], [2]] [0, 1]
      1 (1 / 5)).isOk = true := by decide

/-- Witness for C8 (amended): an empty training partition propagates
IndexError; an empty test partition with nonempty training labels succeeds. -/
theorem error_empty_partition_behavior_witness :
    error (fun X y ts i => (X, X, ([] : Labels), ([] : Labels))) mvClfSpec
      ⟨none⟩ [[1]] [0] 1 (1 / 5) = .error "IndexError" ∧
    (error (fun X y ts i => (X, X, y, y)) mvClfSpec ⟨none⟩ [[1]] [0]
      1 (1 / 5)).isOk = true :=
  ⟨((error_empty_partition_behavior (fun s i => 0)
      (fun X y ts i => (X, X, ([] : Labels), ([] : Labels))) ⟨none⟩ ⟨none⟩
      [[1]] [0] 1 (1 / 5) (by omega)).1 rfl).1,
   (error_empty_partition_behavior (fun s i => 0)
      (fun X y ts i => (X, X, y, y)) ⟨none⟩ ⟨none⟩
      [[1]] [0] 1 (1 / 5) (by omega)).2 (by decide)⟩

end Titanic
